import Mathlib

/-!
Verification of the A2A (Agent 2 Agent) task-exchange protocol implementation:
a shallow embedding of the two agent servers (the greeting responder agent and
the product service agent), the client-side extraction helpers of the
customer-facing agent, and the custom JSON-RPC request handler shared by both
servers.

JavaScript runtime values exchanged on the wire are modelled by the inductive
type Json; machine code that lives in the external a2a-js SDK (the default
request handler and the in-memory task store) is modelled from the spec and
marked as such in doc comments.
-/

namespace A2A

/-- A JSON-like in-memory JavaScript value. JS undefined is conflated with
null: for every field test the source performs (the in-operator tests of the
custom request handler), a field holding undefined is still present, which is
what encoding it as a present null field captures. -/
inductive Json where
  | null
  | bool (b : Bool)
  | num (n : Int)
  | str (s : String)
  | arr (elems : List Json)
  | obj (fields : List (String × Json))

mutual

/-- Structural equality of JSON values. On in-memory values built from this
data model it coincides with the JSON.stringify-based comparison the greeting
agent uses (field insertion order is fixed by the object literals in the
source, so stringify is injective up to structural equality). -/
def Json.beq : Json → Json → Bool
  | .null, .null => true
  | .bool a, .bool b => a == b
  | .num a, .num b => a == b
  | .str a, .str b => a == b
  | .arr a, .arr b => Json.beqList a b
  | .obj a, .obj b => Json.beqFields a b
  | _, _ => false

def Json.beqList : List Json → List Json → Bool
  | [], [] => true
  | a :: as, b :: bs => Json.beq a b && Json.beqList as bs
  | _, _ => false

def Json.beqFields : List (String × Json) → List (String × Json) → Bool
  | [], [] => true
  | (k1, v1) :: as, (k2, v2) :: bs =>
      k1 == k2 && Json.beq v1 v2 && Json.beqFields as bs
  | _, _ => false

end

instance : BEq Json := ⟨Json.beq⟩

/-- Property read obj.key on a JS value: some value when the receiver is an
object that has the field, none (undefined) otherwise. First binding wins,
as for JS objects whose literals never repeat a key. -/
def Json.getField? : Json → String → Option Json
  | .obj fields, key => (fields.find? (fun kv => kv.1 == key)).map (·.2)
  | _, _ => none

/-- The JS in-operator: "key" in value, for the values this system builds. -/
def Json.hasField (j : Json) (key : String) : Bool :=
  (j.getField? key).isSome

/-- JS truthiness of a value. -/
def Json.truthy : Json → Bool
  | .null => false
  | .bool b => b
  | .num n => decide (n ≠ 0)
  | .str s => decide (s ≠ "")
  | .arr _ => true
  | .obj _ => true

/-- The JS test: typeof v === "object" (true for objects, arrays and null). -/
def Json.typeofObject : Json → Bool
  | .null => true
  | .arr _ => true
  | .obj _ => true
  | _ => false

/-- JS: opt || dflt for an optional string operand (undefined, null and the
empty string are falsy). -/
def jsStringOr (opt : Option String) (dflt : String) : String :=
  match opt with
  | some s => if s = "" then dflt else s
  | none => dflt

/-- JS: opt || null for an optional string operand (used for
request.params.sessionId || null). -/
def jsStringOrNull (opt : Option String) : Option String :=
  match opt with
  | some s => if s = "" then none else some s
  | none => none

/-- JS truthiness of an optional string (undefined and "" are falsy). -/
def jsTruthyString : Option String → Bool
  | some s => decide (s ≠ "")
  | none => false

/-- String.prototype.includes on the character lists of the two strings. -/
def charsInclude (pat : List Char) : List Char → Bool
  | [] => pat.isEmpty
  | c :: rest => pat.isPrefixOf (c :: rest) || charsInclude pat rest

/-- JS s.includes(pat). -/
def strIncludes (s pat : String) : Bool :=
  charsInclude pat.toList s.toList

/-- JS s.toLowerCase() on the ASCII texts this system exchanges. -/
def strToLower (s : String) : String :=
  ⟨s.data.map Char.toLower⟩

/-- Message role enum of the a2a-js SDK (Role.User / Role.Agent). -/
inductive Role where
  | user
  | agent
  deriving BEq, DecidableEq

/-- Task state enum of the a2a-js SDK (TaskState.Working etc.). -/
inductive TaskState where
  | submitted
  | working
  | completed
  | failed
  | canceled
  deriving BEq, DecidableEq

/-- One message part: the tagged union the source discriminates on via
part.type === "text" / "data" / "file". -/
inductive Part where
  | text (text : String)
  | data (data : Json)
  | file (file : Json)

/-- part.type === "text". -/
def Part.isTextPart : Part → Bool
  | .text _ => true
  | _ => false

/-- part.text; only ever applied after filtering on isTextPart, where it is
the text payload. -/
def Part.textOrEmpty : Part → String
  | .text t => t
  | _ => ""

/-- part.type === "data". -/
def Part.isDataPart : Part → Bool
  | .data _ => true
  | _ => false

def Part.beq : Part → Part → Bool
  | .text a, .text b => a == b
  | .data a, .data b => Json.beq a b
  | .file a, .file b => Json.beq a b
  | _, _ => false

instance : BEq Part := ⟨Part.beq⟩

/-- A2A message: { role, parts }. -/
structure Message where
  role : Role
  parts : List Part

def Message.beq (a b : Message) : Bool :=
  a.role == b.role && a.parts == b.parts

instance : BEq Message := ⟨Message.beq⟩

/-- The shared pipeline
message.parts.filter(part => part.type === "text").map(part => part.text).join("")
used by both executors and by the customer-facing agent. -/
def joinTextParts (parts : List Part) : String :=
  String.join ((parts.filter Part.isTextPart).map Part.textOrEmpty)

/-- TaskStatus: { state, message, timestamp }. -/
structure TaskStatus where
  state : TaskState
  message : Option Message
  timestamp : String

/-- Artifact as built by the product service agent:
{ name, description, parts, index, metadata }. -/
structure Artifact where
  name : String
  description : String
  parts : List Part
  index : Nat
  metadata : Json

/-- Task object. id and sessionId are optional because the product service
agent builds tasks whose id is request.params.id even when that field is
absent (undefined). artifacts is optional because the greeting agent builds
task literals without an artifacts field at all, while the product service
agent always includes one. -/
structure Task where
  id : Option String
  sessionId : Option String
  status : TaskStatus
  history : List Message
  artifacts : Option (List Artifact)
  metadata : Json

/-- The in-memory JS value of a Role (the exact enum payloads of the SDK are
irrelevant to every field test performed by the source). -/
def Role.toJson : Role → Json
  | .user => Json.str "user"
  | .agent => Json.str "agent"

def TaskState.toJson : TaskState → Json
  | .submitted => Json.str "submitted"
  | .working => Json.str "working"
  | .completed => Json.str "completed"
  | .failed => Json.str "failed"
  | .canceled => Json.str "canceled"

/-- The in-memory JS value of a part, field order as in the source literals. -/
def Part.toJson : Part → Json
  | .text t => Json.obj [("type", Json.str "text"), ("text", Json.str t)]
  | .data d => Json.obj [("type", Json.str "data"), ("data", d)]
  | .file f => Json.obj [("type", Json.str "file"), ("file", f)]

def Message.toJson (m : Message) : Json :=
  Json.obj [("role", m.role.toJson), ("parts", Json.arr (m.parts.map Part.toJson))]

def optStrToJson : Option String → Json
  | some s => Json.str s
  | none => Json.null

def TaskStatus.toJson (s : TaskStatus) : Json :=
  Json.obj [("state", s.state.toJson),
            ("message", match s.message with
                        | some m => m.toJson
                        | none => Json.null),
            ("timestamp", Json.str s.timestamp)]

def Artifact.toJson (a : Artifact) : Json :=
  Json.obj [("name", Json.str a.name),
            ("description", Json.str a.description),
            ("parts", Json.arr (a.parts.map Part.toJson)),
            ("index", Json.num a.index),
            ("metadata", a.metadata)]

/-- The in-memory JS value of a task. The artifacts field is present exactly
when the source literal that built the task had one (the greeting agent's task
literal has no artifacts field; the product service agent's always does). -/
def Task.toJson (t : Task) : Json :=
  Json.obj ([("id", optStrToJson t.id),
             ("sessionId", optStrToJson t.sessionId),
             ("status", t.status.toJson),
             ("history", Json.arr (t.history.map Message.toJson))] ++
            (match t.artifacts with
             | some as => [("artifacts", Json.arr (as.map Artifact.toJson))]
             | none => []) ++
            [("metadata", t.metadata)])

/-!
The task store. The store implementation (InMemoryTaskStore) lives in the
external a2a-js SDK, not in this repository, so its operations are modelled
from the spec.
-/

/-- A task store over raw JS values, keyed by the id value of the saved
entry. -/
abbrev JsonStore := List (Json × Json)

/-- Modelled from the spec (§4.3, SDK InMemoryTaskStore.save): upsert by
task.id, overwriting any existing entry entirely. -/
def JsonStore.save (store : JsonStore) (t : Json) : JsonStore :=
  let key := (t.getField? "id").getD Json.null
  (key, t) :: store.filter (fun kv => !(kv.1 == key))

/-- Modelled from the spec (§4.3, SDK InMemoryTaskStore.get): lookup by id,
none if absent. -/
def JsonStore.get (store : JsonStore) (key : Json) : Option Json :=
  (store.find? (fun kv => kv.1 == key)).map (·.2)

/-- A JSON-RPC response envelope as a JS value: the jsonrpc field is the
constant "2.0" and is omitted; result/error are none when the field is
absent. -/
structure JsonRpcResponse where
  id : Json
  result : Option Json
  error : Option Json

/-- The post-hoc structural Task test of CustomRequestHandler.onMessageSend:
"result" in response && response.result && typeof response.result === "object"
&& "id" in response.result && "status" in response.result
(the "result" in response conjunct is the presence of the result field,
carried by the Option in the envelope model). -/
def isTaskShaped (r : Json) : Bool :=
  r.truthy && r.typeofObject && r.hasField "id" && r.hasField "status"

/-- CustomRequestHandler.onMessageSend (identical in both agent servers),
factored over the response value produced by super.onMessageSend, which lives
in the external a2a-js SDK: whatever response the parent produced — for
whichever JSON-RPC method — save response.result to the task store when it
passes the structural Task test, then return the response unchanged. The save
decision inspects only the response, never the request. -/
def CustomRequestHandler.onMessageSend (superResponse : JsonRpcResponse)
    (store : JsonStore) : JsonRpcResponse × JsonStore :=
  match superResponse.result with
  | some r =>
      if isTaskShaped r then (superResponse, store.save r)
      else (superResponse, store)
  | none => (superResponse, store)

/-!
Typed view of the request/response envelopes, used to embed the two agent
executors. The bridge to the raw duck-typed Task test of the custom handler is
the pair of lemmas isTaskShaped_task / isTaskShaped_message below.
-/

/-- A JSON-RPC error object { code, message }. -/
structure RpcError where
  code : Int
  message : String

/-- A successful result value of executor onMessageSend: a Task (tasks/send)
or a bare Message (message/send). -/
inductive RpcResult where
  | task (t : Task)
  | message (m : Message)

def RpcResult.toJson : RpcResult → Json
  | .task t => t.toJson
  | .message m => m.toJson

inductive RpcOutcome where
  | result (r : RpcResult)
  | error (e : RpcError)

/-- A typed JSON-RPC response envelope (jsonrpc: "2.0" constant omitted). -/
structure RpcResponse where
  id : Json
  outcome : RpcOutcome

/-- params of a send request: { id?, sessionId?, message }. -/
structure SendParams where
  id : Option String
  sessionId : Option String
  message : Message

/-- A JSON-RPC send request envelope. -/
structure RpcRequest where
  id : Json
  method : String
  params : SendParams

/-!
The greeting responder agent (GreetingAgent / GreetingAgentExecutor).
-/

/-- The fields of the parsed payload that the greeting agent reads:
taskData.type, taskData.input, input.name (input.message is produced by the
plain-text fallback literal). -/
structure GreetInput where
  name : Option String
  message : Option String

structure GreetTaskData where
  type : String
  input : Option GreetInput

/-- GreetingAgent.handleGreeting: input?.name || "friend", then the greeting
string. -/
def GreetingAgent.handleGreeting (input : Option GreetInput) : String :=
  let name := jsStringOr (input.bind GreetInput.name) "friend"
  s!"Hey {name}, greetings from Agent B 🤝"

/-- The reply text the greeting executor computes from the extracted message
text: JSON.parse the text (parseJson models JSON.parse restricted to the
fields read, returning none when parsing throws), fall back to a plain-text
greeting payload, then dispatch on taskData.type. -/
def greetingReply (parseJson : String → Option GreetTaskData)
    (messageText : String) : String :=
  let taskData := match parseJson messageText with
    | some d => d
    | none => { type := "greeting", input := some { name := none, message := some messageText } }
  if taskData.type = "greeting" then GreetingAgent.handleGreeting taskData.input
  else "Unsupported task type"

/-- The agent response message the greeting executor builds. -/
def greetingAgentMessage (parseJson : String → Option GreetTaskData)
    (inbound : Message) : Message :=
  { role := Role.agent,
    parts := [Part.text (greetingReply parseJson (joinTextParts inbound.parts))] }

/-- GreetingAgentExecutor.onMessageSend. parseJson models the JS JSON.parse
call on the extracted message text; now models new Date().toISOString() for
this processing cycle. The task-request test is the JS truthiness of
request.params.id; the duplicate test compares JSON.stringify of messages,
which on these values is structural equality (see Json.beq). The source guard
for a missing history field on a stored task is the identity here because
every stored task of this model has a history. The catch-all error branch of
the source is unreachable on this typed domain (the only throwing operations
it guards are property reads on a malformed request). -/
def GreetingAgentExecutor.onMessageSend (parseJson : String → Option GreetTaskData)
    (now : String) (request : RpcRequest) (task : Option Task) : RpcResponse :=
  let agentMessage := greetingAgentMessage parseJson request.params.message
  if jsTruthyString request.params.id then
    let taskId := request.params.id
    let sessionId := jsStringOrNull request.params.sessionId
    let taskObj := match task with
      | some t => t
      | none =>
          { id := taskId, sessionId := sessionId,
            status := { state := TaskState.working, message := none, timestamp := now },
            history := [], artifacts := none, metadata := Json.obj [] }
    let taskObj := { taskObj with
      status := { state := TaskState.completed, message := some agentMessage, timestamp := now } }
    let userMessage := request.params.message
    let userMessageExists := taskObj.history.any (fun msg => msg == userMessage)
    let taskObj := if userMessageExists then taskObj
      else { taskObj with history := taskObj.history ++ [userMessage] }
    let taskObj := { taskObj with history := taskObj.history ++ [agentMessage] }
    { id := request.id, outcome := RpcOutcome.result (RpcResult.task taskObj) }
  else
    { id := request.id, outcome := RpcOutcome.result (RpcResult.message agentMessage) }

/-!
The product service agent (ACPToolClient / ProductServiceExecutor).
-/

/-- The value ACPToolClient.getProducts resolves with on success: the
normalization step always returns an object whose products field is an array
and whose metadata field is an object. -/
structure ProductData where
  products : List Json
  metadata : Json

def ProductData.toJson (p : ProductData) : Json :=
  Json.obj [("products", Json.arr p.products), ("metadata", p.metadata)]

/-- The artifact literal the product service executor builds. -/
def productArtifact (productData : ProductData) (now : String) : Artifact :=
  { name := "Product Inventory",
    description := "Current inventory of available products",
    parts := [Part.data productData.toJson],
    index := 0,
    metadata := Json.obj [("source", Json.str "ACP Tool"), ("timestamp", Json.str now)] }

/-- The product-request recognizer of ProductServiceExecutor.onMessageSend:
messageText.toLowerCase().includes over three keywords, or a structured
action === "get_products" (guarded by the JS truthiness of the structured
payload). -/
def isProductRequest (messageText : String) (structuredRequest : Option Json) : Bool :=
  strIncludes (strToLower messageText) "product" ||
  strIncludes (strToLower messageText) "inventory" ||
  strIncludes (strToLower messageText) "get" ||
  (match structuredRequest with
   | some d => d.truthy && (d.getField? "action" == some (Json.str "get_products"))
   | none => false)

/-- The structured-data extraction shared by the product service executor and
the customer-facing agent:
parts.find(part => part.type === "data") followed by dataPart ? dataPart.data : null
(a found part is an object, hence truthy). -/
def structuredOf (parts : List Part) : Option Json :=
  match parts.find? Part.isDataPart with
  | some (Part.data d) => some d
  | _ => none

/-- structuredRequest?.filters || {} . -/
def productFilters (structuredRequest : Option Json) : Json :=
  match structuredRequest.bind (fun d => d.getField? "filters") with
  | some v => if v.truthy then v else Json.obj []
  | none => Json.obj []

/-- ProductServiceExecutor.onMessageSend. acpGetProducts models the awaited
external call this.acpTool.getProducts(filters): Except.error e is the call
throwing an error whose message is e (including downstream HTTP failure), and
the executor catch converts it to a JSON-RPC error object with code -32000
and message error.message || the generic fallback. now models the
new Date().toISOString() calls of the cycle. The source guard for a missing
history field on a stored task is the identity here because every stored task
of this model has a history. -/
def ProductServiceExecutor.onMessageSend (acpGetProducts : Json → Except String ProductData)
    (now : String) (request : RpcRequest) (task : Option Task) : RpcResponse :=
  let message := request.params.message
  let messageText := joinTextParts message.parts
  let structuredRequest := structuredOf message.parts
  if !(isProductRequest messageText structuredRequest) then
    { id := request.id,
      outcome := RpcOutcome.error
        { code := -32602, message := "This agent only handles product inventory requests" } }
  else
    match acpGetProducts (productFilters structuredRequest) with
    | Except.error e =>
        { id := request.id,
          outcome := RpcOutcome.error
            { code := -32000,
              message := jsStringOr (some e) "Internal error processing product request" } }
    | Except.ok productData =>
        let taskId := request.params.id
        let sessionId := jsStringOrNull request.params.sessionId
        let taskObj := match task with
          | some t => t
          | none =>
              { id := taskId, sessionId := sessionId,
                status := { state := TaskState.working, message := none, timestamp := now },
                history := [], artifacts := some [], metadata := Json.obj [] }
        let taskObj := { taskObj with history := taskObj.history ++ [message] }
        let productCount := productData.products.length
        let agentMessage : Message :=
          { role := Role.agent,
            parts := [Part.text s!"Found {productCount} products in inventory."] }
        let taskObj := { taskObj with history := taskObj.history ++ [agentMessage] }
        let taskObj := { taskObj with
          status := { state := TaskState.completed, message := some agentMessage, timestamp := now },
          artifacts := some [productArtifact productData now] }
        { id := request.id, outcome := RpcOutcome.result (RpcResult.task taskObj) }

/-!
The server-side dispatch pipeline around an executor. The parts of it that
live in the external a2a-js SDK are modelled from the spec.
-/

/-- The typed task store, keyed by task.id (the key is an Option because the
product service agent saves tasks whose id is the absent params.id; the JS
Map then keys the entry by undefined). -/
abbrev TaskStore := List (Option String × Task)

/-- Modelled from the spec (§4.3): save upserts by task.id, overwriting any
existing entry entirely. -/
def TaskStore.save (store : TaskStore) (t : Task) : TaskStore :=
  (t.id, t) :: store.filter (fun kv => !(kv.1 == t.id))

/-- Modelled from the spec (§4.3): get is lookup by id, none if absent. -/
def TaskStore.get (store : TaskStore) (key : Option String) : Option Task :=
  (store.find? (fun kv => kv.1 == key)).map (·.2)

/-- An executor onMessageSend capability, as the dispatch pipeline consumes
it (§4.4). -/
abbrev Executor := RpcRequest → Option Task → RpcResponse

/-- Modelled from the spec (§4.5): DefaultA2ARequestHandler.onMessageSend of
the SDK loads the task for params.id from the store and invokes the executor;
its own persistence check tests a taskId field that Task objects do not
possess and therefore never fires (per the comments in both agent sources),
so it contributes no store write. -/
def defaultHandlerSend (exec : Executor) (store : TaskStore)
    (request : RpcRequest) : RpcResponse :=
  exec request (store.get request.params.id)

/-- CustomRequestHandler.onMessageSend at the typed level: run the SDK
handler, then persist response.result exactly when it passes the structural
Task test of the source. On typed results that test holds precisely for Task
results (lemmas isTaskShaped_task and isTaskShaped_message), which is the
match performed here. -/
def customSend (exec : Executor) (store : TaskStore)
    (request : RpcRequest) : RpcResponse × TaskStore :=
  let response := defaultHandlerSend exec store request
  match response.outcome with
  | RpcOutcome.result (RpcResult.task t) => (response, store.save t)
  | _ => (response, store)

/-- The Task carried by a response, when its result is a Task. -/
def responseTask? (resp : RpcResponse) : Option Task :=
  match resp.outcome with
  | RpcOutcome.result (RpcResult.task t) => some t
  | _ => none

/-- Strictly sequential greeting-agent send calls: each call carries its own
request and its own new Date().toISOString() timestamp, and the store output
of one call feeds the next. -/
def runGreetingSends (parseJson : String → Option GreetTaskData)
    (store : TaskStore) : List (RpcRequest × String) → TaskStore
  | [] => store
  | (request, now) :: rest =>
      runGreetingSends parseJson
        (customSend (GreetingAgentExecutor.onMessageSend parseJson now) store request).2
        rest

/-!
History bookkeeping used to state the sequential-send history-length law: one
greeting processing cycle rewrites a history h to histStep inbound outbound h,
appending the inbound message only when no structurally identical entry
exists and always appending the outbound message.
-/

/-- One processing cycle on the history: duplicate-suppressed inbound append,
then unconditional outbound append. -/
def histStep (inbound outbound : Message) (h : List Message) : List Message :=
  (if h.any (fun msg => msg == inbound) then h else h ++ [inbound]) ++ [outbound]

/-- Fold histStep over the (inbound, outbound) pairs of a call sequence. -/
def histRun (h : List Message) : List (Message × Message) → List Message
  | [] => h
  | (i, o) :: rest => histRun (histStep i o h) rest

/-- Number of inbound messages whose append is suppressed along a call
sequence. -/
def suppressedCount (h : List Message) : List (Message × Message) → Nat
  | [] => 0
  | (i, o) :: rest =>
      (if h.any (fun msg => msg == i) then 1 else 0) + suppressedCount (histStep i o h) rest

/-- The (inbound, outbound) message pair a greeting send call contributes. -/
def greetingPair (parseJson : String → Option GreetTaskData)
    (call : RpcRequest × String) : Message × Message :=
  (call.1.params.message, greetingAgentMessage parseJson call.1.params.message)

/-!
Client-side extraction helpers of the customer-facing agent (agent-a).
-/

/-- The part of a message value the extraction helpers reach for: its parts
field, which may be absent. A well-formed Message m enters as
RawMessage.ofMessage m. -/
structure RawMessage where
  parts : Option (List Part)

def RawMessage.ofMessage (m : Message) : RawMessage :=
  { parts := some m.parts }

/-- extractMessageText (agent-a): empty string for a missing message or a
missing parts field, otherwise the filter/map/join pipeline over text parts.
Total by construction. -/
def extractMessageText (message : Option RawMessage) : String :=
  match message with
  | none => ""
  | some m =>
      match m.parts with
      | none => ""
      | some parts => joinTextParts parts

/-- extractDataFromMessage (agent-a): null for a missing message or a missing
parts field, otherwise the data field of the first data part, if any. Total
by construction. -/
def extractDataFromMessage (message : Option RawMessage) : Option Json :=
  match message with
  | none => none
  | some m =>
      match m.parts with
      | none => none
      | some parts => structuredOf parts

/-- The spec wording of extractText (§4.1): the concatenation, in part order,
of the text field of every Text part. Kept as a second, independent
definition to compare the source pipeline against. -/
def extractTextSpec : List Part → String
  | [] => ""
  | Part.text t :: rest => t ++ extractTextSpec rest
  | _ :: rest => extractTextSpec rest

/-!
Supporting lemmas.
-/

mutual

theorem Json.beq_refl : ∀ a : Json, Json.beq a a = true
  | .null => rfl
  | .bool b => by simp [Json.beq]
  | .num n => by simp [Json.beq]
  | .str s => by simp [Json.beq]
  | .arr a => by simp [Json.beq, Json.beqList_refl a]
  | .obj a => by simp [Json.beq, Json.beqFields_refl a]

theorem Json.beqList_refl : ∀ a : List Json, Json.beqList a a = true
  | [] => rfl
  | a :: as => by simp [Json.beqList, Json.beq_refl a, Json.beqList_refl as]

theorem Json.beqFields_refl : ∀ a : List (String × Json), Json.beqFields a a = true
  | [] => rfl
  | (k, v) :: as => by simp [Json.beqFields, Json.beq_refl v, Json.beqFields_refl as]

end

theorem Json.beq_self (a : Json) : (a == a) = true :=
  Json.beq_refl a

/-- A value with a field is an object, hence truthy and of typeof object. -/
theorem Json.hasField_truthy (r : Json) (k : String) (h : r.hasField k = true) :
    r.truthy = true ∧ r.typeofObject = true := by
  cases r <;> simp [Json.hasField, Json.getField?, Json.truthy, Json.typeofObject] at h ⊢

/-- On typed results, the duck-typed structural Task test of the custom
request handler holds for every Task result. -/
theorem isTaskShaped_task (t : Task) :
    isTaskShaped (RpcResult.task t).toJson = true := by
  cases h : t.artifacts <;>
    simp [RpcResult.toJson, Task.toJson, isTaskShaped, Json.truthy,
      Json.typeofObject, Json.hasField, Json.getField?, h, List.find?]

/-- On typed results, the duck-typed structural Task test of the custom
request handler fails for every bare Message result. -/
theorem isTaskShaped_message (m : Message) :
    isTaskShaped (RpcResult.message m).toJson = false := by
  simp [RpcResult.toJson, Message.toJson, isTaskShaped, Json.hasField,
    Json.getField?, List.find?]

/-- C1: for every response produced by the request handler onMessageSend, if
the result of the response is an object possessing both an id field and a
status field, then that result is saved to the task store before the response
is returned. The statement quantifies over an arbitrary response of the
parent handler, so it holds regardless of which JSON-RPC method produced the
result: the save decision is a post-hoc structural test on the response, and
the embedded handler does not even take the request as an input. -/
theorem c1_task_shaped_result_persisted (superResponse : JsonRpcResponse)
    (store : JsonStore) (r : Json)
    (hres : superResponse.result = some r)
    (hid : r.hasField "id" = true)
    (hstatus : r.hasField "status" = true) :
    (CustomRequestHandler.onMessageSend superResponse store).1 = superResponse ∧
    (CustomRequestHandler.onMessageSend superResponse store).2.get
        ((r.getField? "id").getD Json.null) = some r := by
  obtain ⟨ht, hto⟩ := Json.hasField_truthy r "id" hid
  have hshape : isTaskShaped r = true := by
    simp [isTaskShaped, ht, hto, hid, hstatus]
  refine ⟨by simp [CustomRequestHandler.onMessageSend, hres, hshape], ?_⟩
  simp [CustomRequestHandler.onMessageSend, hres, hshape, JsonStore.save,
    JsonStore.get, List.find?, Json.beq_self]

/-- Witness for C1 at a concrete Task-shaped result. -/
theorem c1_witness :
    (CustomRequestHandler.onMessageSend
        { id := Json.num 1,
          result := some (Json.obj [("id", Json.str "t1"), ("status", Json.obj [])]),
          error := none } []).1 =
      { id := Json.num 1,
        result := some (Json.obj [("id", Json.str "t1"), ("status", Json.obj [])]),
        error := none } ∧
    (CustomRequestHandler.onMessageSend
        { id := Json.num 1,
          result := some (Json.obj [("id", Json.str "t1"), ("status", Json.obj [])]),
          error := none } []).2.get (Json.str "t1") =
      some (Json.obj [("id", Json.str "t1"), ("status", Json.obj [])]) :=
  c1_task_shaped_result_persisted _ []
    (Json.obj [("id", Json.str "t1"), ("status", Json.obj [])]) rfl rfl rfl

theorem stringJoin_cons (s : String) (l : List String) :
    String.join (s :: l) = s ++ String.join l := by
  simp [String.join_eq]
  ext
  simp

/-- The filter/map/join pipeline of the source computes the concatenation, in
part order, of the text field of every Text part. -/
theorem joinTextParts_eq_spec : ∀ parts : List Part,
    joinTextParts parts = extractTextSpec parts
  | [] => rfl
  | Part.text t :: rest => by
      have ih := joinTextParts_eq_spec rest
      simp only [joinTextParts] at ih
      simp [joinTextParts, extractTextSpec, List.filter, Part.isTextPart,
        stringJoin_cons, Part.textOrEmpty, ih]
  | Part.data d :: rest => by
      simp [joinTextParts, extractTextSpec, List.filter, Part.isTextPart]
      simpa [joinTextParts] using joinTextParts_eq_spec rest
  | Part.file f :: rest => by
      simp [joinTextParts, extractTextSpec, List.filter, Part.isTextPart]
      simpa [joinTextParts] using joinTextParts_eq_spec rest

/-- A part list with no text part contributes the empty concatenation. -/
theorem extractTextSpec_no_text : ∀ parts : List Part,
    parts.all (fun p => !(Part.isTextPart p)) = true → extractTextSpec parts = ""
  | [], _ => rfl
  | Part.text t :: rest, h => by simp [List.all, Part.isTextPart] at h
  | Part.data d :: rest, h => by
      simp only [extractTextSpec]
      exact extractTextSpec_no_text rest (by simpa [List.all, Part.isTextPart] using h)
  | Part.file f :: rest, h => by
      simp only [extractTextSpec]
      exact extractTextSpec_no_text rest (by simpa [List.all, Part.isTextPart] using h)

/-- C8: for every message, extractMessageText returns the concatenation, in
part order, of the text field of every Text part (the independent spec-side
recursion extractTextSpec), and the empty string when the message has no text
part. The function is total by construction, so it never fails. -/
theorem c8_extract_text_concatenates_text_parts (m : Message) :
    extractMessageText (some (RawMessage.ofMessage m)) = extractTextSpec m.parts ∧
    (m.parts.all (fun p => !(Part.isTextPart p)) = true →
      extractMessageText (some (RawMessage.ofMessage m)) = "") := by
  have h1 : extractMessageText (some (RawMessage.ofMessage m)) = extractTextSpec m.parts := by
    simp [extractMessageText, RawMessage.ofMessage, joinTextParts_eq_spec m.parts]
  exact ⟨h1, fun h => by rw [h1, extractTextSpec_no_text m.parts h]⟩

/-- Witness for C8 on a concrete message with a data part and two text
parts. -/
theorem c8_witness :
    extractMessageText (some (RawMessage.ofMessage
        { role := Role.user,
          parts := [Part.text "Get ", Part.data Json.null, Part.text "products"] })) =
      extractTextSpec [Part.text "Get ", Part.data Json.null, Part.text "products"] ∧
    extractMessageText (some (RawMessage.ofMessage
        { role := Role.user, parts := [Part.data Json.null] })) = "" :=
  ⟨(c8_extract_text_concatenates_text_parts
      { role := Role.user,
        parts := [Part.text "Get ", Part.data Json.null, Part.text "products"] }).1,
   (c8_extract_text_concatenates_text_parts
      { role := Role.user, parts := [Part.data Json.null] }).2 (by decide)⟩

/-- C9: the client-side extraction helpers are total at the interface
boundary: on a missing (null or undefined) message and on a message lacking a
parts field, extractMessageText returns the empty string and
extractDataFromMessage returns null; both are total functions, so neither
throws. -/
theorem c9_extraction_helpers_total_on_missing_input :
    extractMessageText none = "" ∧
    extractMessageText (some { parts := none }) = "" ∧
    extractDataFromMessage none = none ∧
    extractDataFromMessage (some { parts := none }) = none :=
  ⟨rfl, rfl, rfl, rfl⟩

/-- C7: whenever the product service executor completes a processing cycle
with a product payload, the artifacts of the resulting task equal exactly the
newly built singleton artifact sequence, for every prior task (in particular
for every prior artifacts value): prior artifacts are replaced wholesale,
never merged with or appended to. -/
theorem c7_artifacts_replaced_wholesale
    (acp : Json → Except String ProductData) (d : ProductData) (now : String)
    (request : RpcRequest) (task : Option Task)
    (hrec : strIncludes (strToLower (joinTextParts request.params.message.parts))
        "product" = true)
    (hacp : ∀ f, acp f = Except.ok d) :
    (responseTask? (ProductServiceExecutor.onMessageSend acp now request task)).map
        Task.artifacts = some (some [productArtifact d now]) := by
  have hip : isProductRequest (joinTextParts request.params.message.parts)
      (structuredOf request.params.message.parts) = true := by
    simp [isProductRequest, hrec]
  cases task <;>
    simp [ProductServiceExecutor.onMessageSend, hip, hacp, responseTask?]

/-- Witness for C7: a prior task with a nonempty artifacts sequence is
overwritten by the new singleton. -/
theorem c7_witness :
    (responseTask? (ProductServiceExecutor.onMessageSend
        (fun _ => Except.ok { products := [Json.str "p"], metadata := Json.obj [] }) "ts"
        { id := Json.num 1, method := "tasks/send",
          params := { id := some "t1", sessionId := none,
                      message := { role := Role.user, parts := [Part.text "products?"] } } }
        (some { id := some "t1", sessionId := none,
                status := { state := TaskState.completed, message := none, timestamp := "t0" },
                history := [],
                artifacts := some [productArtifact
                  { products := [], metadata := Json.null } "old"],
                metadata := Json.obj [] }))).map Task.artifacts =
      some (some [productArtifact
        { products := [Json.str "p"], metadata := Json.obj [] } "ts"]) :=
  c7_artifacts_replaced_wholesale _ _ "ts" _ _ (by decide) (fun _ => rfl)

/-- C3: if the external product lookup inside the executor raises (modelled
by the awaited call resolving to Except.error), the dispatched tasks/send
call returns a JSON-RPC error envelope with the generic internal-error code
-32000 — the exception never propagates unconverted — and the task store is
left exactly as it was: the entry for the requested id is unchanged if
present, and remains absent otherwise. -/
theorem c3_executor_failure_error_envelope_store_unchanged
    (acp : Json → Except String ProductData) (e : String) (now : String)
    (store : TaskStore) (request : RpcRequest)
    (hrec : strIncludes (strToLower (joinTextParts request.params.message.parts))
        "get" = true)
    (hfail : ∀ f, acp f = Except.error e) :
    (∃ msg, (customSend (ProductServiceExecutor.onMessageSend acp now)
        store request).1.outcome = RpcOutcome.error { code := -32000, message := msg }) ∧
    (customSend (ProductServiceExecutor.onMessageSend acp now)
        store request).2 = store := by
  have hip : isProductRequest (joinTextParts request.params.message.parts)
      (structuredOf request.params.message.parts) = true := by
    simp [isProductRequest, hrec]
  constructor
  · exact ⟨jsStringOr (some e) "Internal error processing product request",
      by simp [customSend, defaultHandlerSend, ProductServiceExecutor.onMessageSend,
        hip, hfail]⟩
  · simp [customSend, defaultHandlerSend, ProductServiceExecutor.onMessageSend,
      hip, hfail]

/-- Witness for C3: a failing catalog call over a store holding a prior task
for the same id. -/
theorem c3_witness :
    (∃ msg, (customSend (ProductServiceExecutor.onMessageSend
        (fun _ => Except.error "fetch failed") "ts")
        [(some "t1",
          { id := some "t1", sessionId := none,
            status := { state := TaskState.completed, message := none, timestamp := "t0" },
            history := [], artifacts := some [], metadata := Json.obj [] })]
        { id := Json.num 1, method := "tasks/send",
          params := { id := some "t1", sessionId := none,
                      message := { role := Role.user, parts := [Part.text "get products"] } } }).1.outcome
        = RpcOutcome.error { code := -32000, message := msg }) ∧
    (customSend (ProductServiceExecutor.onMessageSend
        (fun _ => Except.error "fetch failed") "ts")
        [(some "t1",
          { id := some "t1", sessionId := none,
            status := { state := TaskState.completed, message := none, timestamp := "t0" },
            history := [], artifacts := some [], metadata := Json.obj [] })]
        { id := Json.num 1, method := "tasks/send",
          params := { id := some "t1", sessionId := none,
                      message := { role := Role.user, parts := [Part.text "get products"] } } }).2
      = [(some "t1",
          { id := some "t1", sessionId := none,
            status := { state := TaskState.completed, message := none, timestamp := "t0" },
            history := [], artifacts := some [], metadata := Json.obj [] })] :=
  c3_executor_failure_error_envelope_store_unchanged
    (fun _ => Except.error "fetch failed") "fetch failed" "ts" _ _
    (by decide) (fun _ => rfl)

/-- C4 counterexample: the product service executor has no message/send
branch. On a request whose params carry a message but no task id it still
builds a Task object (whose id is the absent params.id) and returns it as the
result, and the custom handler persists it: the task store gains an entry,
keyed by the undefined id. This falsifies the claim as stated for the product
service agent. -/
theorem c4_counterexample_product_message_send_persists_task :
    (((customSend (ProductServiceExecutor.onMessageSend
        (fun _ => Except.ok { products := [], metadata := Json.obj [] }) "ts")
        [] { id := Json.num 7, method := "message/send",
             params := { id := none, sessionId := none,
                         message := { role := Role.user,
                                      parts := [Part.text "Get all products"] } } }).2.get
        none).isSome = true) ∧
    ((responseTask? (customSend (ProductServiceExecutor.onMessageSend
        (fun _ => Except.ok { products := [], metadata := Json.obj [] }) "ts")
        [] { id := Json.num 7, method := "message/send",
             params := { id := none, sessionId := none,
                         message := { role := Role.user,
                                      parts := [Part.text "Get all products"] } } }).1).isSome = true) := by
  decide

/-- C4 (amended to the greeting agent executor, where the dispatcher has a
message/send branch): for every request whose params carry a message but no
task id, the executor is invoked and the outbound Message itself is returned
as the JSON-RPC result — not a Task object — and the task store is left
exactly as it was: no entry is created or mutated. -/
theorem c4_greeting_message_send_no_persistence
    (parseJson : String → Option GreetTaskData) (now : String)
    (store : TaskStore) (request : RpcRequest)
    (hid : request.params.id = none) :
    (customSend (GreetingAgentExecutor.onMessageSend parseJson now) store request).1.outcome
      = RpcOutcome.result (RpcResult.message
          (greetingAgentMessage parseJson request.params.message)) ∧
    (customSend (GreetingAgentExecutor.onMessageSend parseJson now) store request).2
      = store := by
  constructor <;>
    simp [customSend, defaultHandlerSend, GreetingAgentExecutor.onMessageSend,
      hid, jsTruthyString]

/-- Witness for C4 over a concrete id-less request and a nonempty store. -/
theorem c4_witness :
    (customSend (GreetingAgentExecutor.onMessageSend (fun _ => none) "ts")
        [(some "t9",
          { id := some "t9", sessionId := none,
            status := { state := TaskState.completed, message := none, timestamp := "t0" },
            history := [], artifacts := none, metadata := Json.obj [] })]
        { id := Json.num 3, method := "message/send",
          params := { id := none, sessionId := none,
                      message := { role := Role.user, parts := [Part.text "hi"] } } }).1.outcome
      = RpcOutcome.result (RpcResult.message
          (greetingAgentMessage (fun _ => none)
            { role := Role.user, parts := [Part.text "hi"] })) ∧
    (customSend (GreetingAgentExecutor.onMessageSend (fun _ => none) "ts")
        [(some "t9",
          { id := some "t9", sessionId := none,
            status := { state := TaskState.completed, message := none, timestamp := "t0" },
            history := [], artifacts := none, metadata := Json.obj [] })]
        { id := Json.num 3, method := "message/send",
          params := { id := none, sessionId := none,
                      message := { role := Role.user, parts := [Part.text "hi"] } } }).2
      = [(some "t9",
          { id := some "t9", sessionId := none,
            status := { state := TaskState.completed, message := none, timestamp := "t0" },
            history := [], artifacts := none, metadata := Json.obj [] })] :=
  c4_greeting_message_send_no_persistence (fun _ => none) "ts" _ _ rfl

/-- C6 counterexample: on a tasks/send request with a fresh task id whose
message has role User and the single Text part "hello", the product service
executor does not produce a Task at all: the message is not recognized as a
product request, so the response is the invalid-params error -32602. This
falsifies the claim as stated for the product service agent. -/
theorem c6_counterexample_product_hello_error :
    ((customSend (ProductServiceExecutor.onMessageSend
        (fun _ => Except.ok { products := [], metadata := Json.obj [] }) "ts")
        [] { id := Json.str "r1", method := "tasks/send",
             params := { id := some "t1", sessionId := none,
                         message := { role := Role.user, parts := [Part.text "hello"] } } }).1.outcome
      = RpcOutcome.error
          { code := -32602,
            message := "This agent only handles product inventory requests" }) ∧
    (responseTask? (customSend (ProductServiceExecutor.onMessageSend
        (fun _ => Except.ok { products := [], metadata := Json.obj [] }) "ts")
        [] { id := Json.str "r1", method := "tasks/send",
             params := { id := some "t1", sessionId := none,
                         message := { role := Role.user, parts := [Part.text "hello"] } } }).1
      = none) := by
  constructor <;> rfl

/-- C6 (amended to the greeting agent executor): for a tasks/send request
with a fresh task id whose message has role User and a single Text part, the
resulting Task has status.state = Completed and its history is exactly a User
message followed by an Agent message (length 2). -/
theorem c6_greeting_fresh_task_completed_two_history
    (parseJson : String → Option GreetTaskData) (now tid text : String)
    (reqId : Json) (sid : Option String) (store : TaskStore)
    (hid : tid ≠ "") (hfresh : store.get (some tid) = none) :
    ((responseTask? (customSend (GreetingAgentExecutor.onMessageSend parseJson now) store
        { id := reqId, method := "tasks/send",
          params := { id := some tid, sessionId := sid,
                      message := { role := Role.user, parts := [Part.text text] } } }).1).map
      (fun t => (t.status.state, t.history.length, t.history.map Message.role)))
      = some (TaskState.completed, 2, [Role.user, Role.agent]) := by
  simp [customSend, defaultHandlerSend, hfresh, GreetingAgentExecutor.onMessageSend,
    jsTruthyString, hid, responseTask?, greetingAgentMessage]

/-- Witness for C6 on the spec scenario: id "t1", text "hello". -/
theorem c6_witness :
    ((responseTask? (customSend (GreetingAgentExecutor.onMessageSend (fun _ => none) "ts") []
        { id := Json.str "r1", method := "tasks/send",
          params := { id := some "t1", sessionId := none,
                      message := { role := Role.user, parts := [Part.text "hello"] } } }).1).map
      (fun t => (t.status.state, t.history.length, t.history.map Message.role)))
      = some (TaskState.completed, 2, [Role.user, Role.agent]) :=
  c6_greeting_fresh_task_completed_two_history (fun _ => none) "ts" "t1" "hello"
    (Json.str "r1") none [] (by decide) rfl

/-- C10: for every successful task-producing onMessageSend result of either
executor, the status.message of the returned task is exactly the last entry
of its history (both are the outbound agent message) and status.state is
Completed. -/
theorem c10_status_message_is_last_history_entry
    (parseJson : String → Option GreetTaskData) (now1 : String)
    (greq : RpcRequest) (gtask : Option Task) (t1 : Task)
    (acp : Json → Except String ProductData) (now2 : String)
    (preq : RpcRequest) (ptask : Option Task) (t2 : Task)
    (h1 : responseTask? (GreetingAgentExecutor.onMessageSend parseJson now1 greq gtask)
        = some t1)
    (h2 : responseTask? (ProductServiceExecutor.onMessageSend acp now2 preq ptask)
        = some t2) :
    (t1.status.state = TaskState.completed ∧ t1.status.message = t1.history.getLast?) ∧
    (t2.status.state = TaskState.completed ∧ t2.status.message = t2.history.getLast?) := by
  constructor
  · cases hid : jsTruthyString greq.params.id with
    | false => simp [GreetingAgentExecutor.onMessageSend, hid, responseTask?] at h1
    | true =>
        simp only [GreetingAgentExecutor.onMessageSend, hid, if_true,
          responseTask?, Option.some.injEq] at h1
        rw [← h1]
        split <;> simp [List.getLast?_concat]
  · cases hip : isProductRequest (joinTextParts preq.params.message.parts)
        (structuredOf preq.params.message.parts) with
    | false => simp [ProductServiceExecutor.onMessageSend, hip, responseTask?] at h2
    | true =>
        cases hacp : acp (productFilters (structuredOf preq.params.message.parts)) with
        | error e =>
            simp [ProductServiceExecutor.onMessageSend, hip, hacp, responseTask?] at h2
        | ok d =>
            simp only [ProductServiceExecutor.onMessageSend, hip, hacp,
              Bool.not_true, Bool.false_eq_true, if_false,
              responseTask?, Option.some.injEq] at h2
            rw [← h2]
            simp [List.getLast?_concat]

/-- Witness for C10 with a concrete send to each executor. -/
theorem c10_witness :
    (((responseTask? (GreetingAgentExecutor.onMessageSend (fun _ => none) "ts"
        { id := Json.num 1, method := "tasks/send",
          params := { id := some "t1", sessionId := none,
                      message := { role := Role.user, parts := [Part.text "hello"] } } }
        none)).getD
      { id := none, sessionId := none,
        status := { state := TaskState.working, message := none, timestamp := "x" },
        history := [], artifacts := none, metadata := Json.null }).status.state
      = TaskState.completed) ∧
    (((responseTask? (ProductServiceExecutor.onMessageSend
        (fun _ => Except.ok { products := [], metadata := Json.obj [] }) "ts"
        { id := Json.num 2, method := "tasks/send",
          params := { id := some "t2", sessionId := none,
                      message := { role := Role.user, parts := [Part.text "get products"] } } }
        none)).getD
      { id := none, sessionId := none,
        status := { state := TaskState.working, message := none, timestamp := "x" },
        history := [], artifacts := none, metadata := Json.null }).status.message
      = ((responseTask? (ProductServiceExecutor.onMessageSend
        (fun _ => Except.ok { products := [], metadata := Json.obj [] }) "ts"
        { id := Json.num 2, method := "tasks/send",
          params := { id := some "t2", sessionId := none,
                      message := { role := Role.user, parts := [Part.text "get products"] } } }
        none)).getD
      { id := none, sessionId := none,
        status := { state := TaskState.working, message := none, timestamp := "x" },
        history := [], artifacts := none, metadata := Json.null }).history.getLast?) := by
  have h := c10_status_message_is_last_history_entry (fun _ => none) "ts"
    { id := Json.num 1, method := "tasks/send",
      params := { id := some "t1", sessionId := none,
                  message := { role := Role.user, parts := [Part.text "hello"] } } }
    none
    ((responseTask? (GreetingAgentExecutor.onMessageSend (fun _ => none) "ts"
        { id := Json.num 1, method := "tasks/send",
          params := { id := some "t1", sessionId := none,
                      message := { role := Role.user, parts := [Part.text "hello"] } } }
        none)).getD
      { id := none, sessionId := none,
        status := { state := TaskState.working, message := none, timestamp := "x" },
        history := [], artifacts := none, metadata := Json.null })
    (fun _ => Except.ok { products := [], metadata := Json.obj [] }) "ts"
    { id := Json.num 2, method := "tasks/send",
      params := { id := some "t2", sessionId := none,
                  message := { role := Role.user, parts := [Part.text "get products"] } } }
    none
    ((responseTask? (ProductServiceExecutor.onMessageSend
        (fun _ => Except.ok { products := [], metadata := Json.obj [] }) "ts"
        { id := Json.num 2, method := "tasks/send",
          params := { id := some "t2", sessionId := none,
                      message := { role := Role.user, parts := [Part.text "get products"] } } }
        none)).getD
      { id := none, sessionId := none,
        status := { state := TaskState.working, message := none, timestamp := "x" },
        history := [], artifacts := none, metadata := Json.null })
    (by rfl) (by rfl)
  exact ⟨h.1.1, h.2.2⟩

theorem TaskStore.get_save_self (store : TaskStore) (t : Task) :
    (store.save t).get t.id = some t := by
  simp [TaskStore.save, TaskStore.get, List.find?]

/-- One dispatched greeting send against a stored task rewrites its history
by histStep and keeps it stored under the same id. -/
theorem greeting_cycle_existing (parseJson : String → Option GreetTaskData)
    (now : String) (store : TaskStore) (request : RpcRequest) (i : String) (t0 : Task)
    (hid : request.params.id = some i) (hne : i ≠ "")
    (h0 : store.get (some i) = some t0) (hkey : t0.id = some i) :
    ((customSend (GreetingAgentExecutor.onMessageSend parseJson now) store request).2).get
        (some i) =
      some { t0 with
        status := { state := TaskState.completed,
                    message := some (greetingAgentMessage parseJson request.params.message),
                    timestamp := now },
        history := histStep request.params.message
          (greetingAgentMessage parseJson request.params.message) t0.history } := by
  obtain ⟨t0id, t0sid, t0status, t0hist, t0arts, t0meta⟩ := t0
  have hkey2 : t0id = some i := hkey
  subst hkey2
  have hsave := TaskStore.get_save_self store
    { id := some i, sessionId := t0sid,
      status := { state := TaskState.completed,
                  message := some (greetingAgentMessage parseJson request.params.message),
                  timestamp := now },
      history := histStep request.params.message
        (greetingAgentMessage parseJson request.params.message) t0hist,
      artifacts := t0arts, metadata := t0meta }
  by_cases hdup : t0hist.any (fun msg => msg == request.params.message) = true
  · simpa [customSend, defaultHandlerSend, GreetingAgentExecutor.onMessageSend,
      hid, jsTruthyString, hne, h0, hdup, histStep] using hsave
  · simpa [customSend, defaultHandlerSend, GreetingAgentExecutor.onMessageSend,
      hid, jsTruthyString, hne, h0, hdup, histStep] using hsave

/-- One dispatched greeting send with a fresh id stores a new task whose
history is histStep applied to the empty history. -/
theorem greeting_cycle_fresh (parseJson : String → Option GreetTaskData)
    (now : String) (store : TaskStore) (request : RpcRequest) (i : String)
    (hid : request.params.id = some i) (hne : i ≠ "")
    (h0 : store.get (some i) = none) :
    ((customSend (GreetingAgentExecutor.onMessageSend parseJson now) store request).2).get
        (some i) =
      some
        { id := some i, sessionId := jsStringOrNull request.params.sessionId,
          status := { state := TaskState.completed,
                      message := some (greetingAgentMessage parseJson request.params.message),
                      timestamp := now },
          history := histStep request.params.message
            (greetingAgentMessage parseJson request.params.message) [],
          artifacts := none, metadata := Json.obj [] } := by
  have hsave := TaskStore.get_save_self store
    { id := some i, sessionId := jsStringOrNull request.params.sessionId,
      status := { state := TaskState.completed,
                  message := some (greetingAgentMessage parseJson request.params.message),
                  timestamp := now },
      history := histStep request.params.message
        (greetingAgentMessage parseJson request.params.message) [],
      artifacts := none, metadata := Json.obj [] }
  simpa [customSend, defaultHandlerSend, GreetingAgentExecutor.onMessageSend,
    hid, jsTruthyString, hne, h0, histStep] using hsave

/-- Sequential greeting sends starting from a stored task fold histStep over
the per-call message pairs. -/
theorem runGreetingSends_existing (parseJson : String → Option GreetTaskData)
    (i : String) (hne : i ≠ "") :
    ∀ (calls : List (RpcRequest × String)) (store : TaskStore) (t0 : Task),
      (∀ c ∈ calls, c.1.params.id = some i) →
      store.get (some i) = some t0 → t0.id = some i →
      ∃ t, (runGreetingSends parseJson store calls).get (some i) = some t ∧
        t.id = some i ∧
        t.history = histRun t0.history (calls.map (greetingPair parseJson))
  | [], store, t0, _, h0, hkey =>
      ⟨t0, by simpa [runGreetingSends, histRun] using h0, hkey, rfl⟩
  | (request, now) :: rest, store, t0, hids, h0, hkey => by
      have hid : request.params.id = some i := hids (request, now) (by simp)
      have hcycle := greeting_cycle_existing parseJson now store request i t0 hid hne h0 hkey
      have hrest := runGreetingSends_existing parseJson i hne rest
        (customSend (GreetingAgentExecutor.onMessageSend parseJson now) store request).2
        _ (fun c hc => hids c (by simp [hc])) hcycle hkey
      obtain ⟨t, hget, hkey2, hhist⟩ := hrest
      exact ⟨t, by simpa [runGreetingSends] using hget, hkey2,
        by simpa [histRun, greetingPair] using hhist⟩

/-- The history length bookkeeping: each pair contributes 2 entries minus its
suppression flag. -/
theorem histRun_length : ∀ (ps : List (Message × Message)) (h : List Message),
    (histRun h ps).length + suppressedCount h ps = h.length + 2 * ps.length
  | [], h => by simp [histRun, suppressedCount]
  | (i, o) :: ps, h => by
      have ih := histRun_length ps (histStep i o h)
      by_cases hdup : h.any (fun msg => msg == i) = true <;>
        · simp [histRun, suppressedCount, histStep, hdup] at ih ⊢
          omega

/-- C2 counterexample: the product service executor performs no duplicate
suppression. Two strictly sequential tasks/send calls for id "t1" carrying
the structurally identical inbound message "get products" end with a history
of length 4 in which that User message occurs twice, where the claim mandates
length 2 times 2 minus 1 = 3 with a single occurrence. -/
theorem c2_counterexample_product_no_duplicate_suppression :
    (((customSend (ProductServiceExecutor.onMessageSend
        (fun _ => Except.ok { products := [], metadata := Json.obj [] }) "ts")
        (customSend (ProductServiceExecutor.onMessageSend
          (fun _ => Except.ok { products := [], metadata := Json.obj [] }) "ts")
          []
          { id := Json.num 1, method := "tasks/send",
            params := { id := some "t1", sessionId := none,
                        message := { role := Role.user,
                                     parts := [Part.text "get products"] } } }).2
        { id := Json.num 2, method := "tasks/send",
          params := { id := some "t1", sessionId := none,
                      message := { role := Role.user,
                                   parts := [Part.text "get products"] } } }).2.get
        (some "t1")).map Task.history)
      = some [{ role := Role.user, parts := [Part.text "get products"] },
              { role := Role.agent, parts := [Part.text "Found 0 products in inventory."] },
              { role := Role.user, parts := [Part.text "get products"] },
              { role := Role.agent, parts := [Part.text "Found 0 products in inventory."] }] := by
  rfl

/-- C2 (amended to the greeting agent executor; the product service executor
appends the inbound message unconditionally, see the counterexample): every
greeting processing cycle appends the inbound message to the history only if
no existing entry is structurally identical to it and always appends the
outbound message (the histStep shape, established per cycle by
greeting_cycle_fresh and greeting_cycle_existing), hence for any nonempty
strictly sequential run of tasks/send calls with the same task id from a
store not containing that id, the final history is the histStep fold of the
per-call message pairs and its length is 2 × (number of calls) minus the
number of structurally-duplicate inbound messages suppressed. -/
theorem c2_greeting_history_length (parseJson : String → Option GreetTaskData)
    (i : String) (hne : i ≠ "") (store : TaskStore)
    (hfresh : store.get (some i) = none)
    (call : RpcRequest × String) (rest : List (RpcRequest × String))
    (hids : ∀ c ∈ call :: rest, c.1.params.id = some i) :
    ∃ t, (runGreetingSends parseJson store (call :: rest)).get (some i) = some t ∧
      t.history = histRun [] ((call :: rest).map (greetingPair parseJson)) ∧
      t.history.length =
        2 * (call :: rest).length -
          suppressedCount [] ((call :: rest).map (greetingPair parseJson)) := by
  obtain ⟨request, now⟩ := call
  have hid : request.params.id = some i := hids (request, now) (by simp)
  have hcycle := greeting_cycle_fresh parseJson now store request i hid hne hfresh
  have hrest := runGreetingSends_existing parseJson i hne rest
    (customSend (GreetingAgentExecutor.onMessageSend parseJson now) store request).2
    _ (fun c hc => hids c (by simp [hc])) hcycle rfl
  obtain ⟨t, hget, hkey2, hhist⟩ := hrest
  have hh : t.history =
      histRun [] (((request, now) :: rest).map (greetingPair parseJson)) := by
    simpa [histRun, greetingPair] using hhist
  refine ⟨t, by simpa [runGreetingSends] using hget, hh, ?_⟩
  have hlen := histRun_length (((request, now) :: rest).map (greetingPair parseJson)) []
  rw [hh]
  simp only [List.length_map, List.length_nil] at hlen ⊢
  omega

/-- Witness for C2: two sequential sends of the identical greeting message;
one inbound duplicate is suppressed, so the final history has 3 entries. -/
theorem c2_witness :
    ∃ t, (runGreetingSends (fun _ => none) []
        [({ id := Json.num 1, method := "tasks/send",
            params := { id := some "t1", sessionId := none,
                        message := { role := Role.user, parts := [Part.text "hi"] } } }, "s1"),
         ({ id := Json.num 2, method := "tasks/send",
            params := { id := some "t1", sessionId := none,
                        message := { role := Role.user, parts := [Part.text "hi"] } } }, "s2")]).get
        (some "t1") = some t ∧
      t.history = histRun []
        ([({ id := Json.num 1, method := "tasks/send",
             params := { id := some "t1", sessionId := none,
                         message := { role := Role.user, parts := [Part.text "hi"] } } }, "s1"),
          ({ id := Json.num 2, method := "tasks/send",
             params := { id := some "t1", sessionId := none,
                         message := { role := Role.user, parts := [Part.text "hi"] } } }, "s2")].map
          (greetingPair (fun _ => none))) ∧
      t.history.length = 2 * 2 -
        suppressedCount []
          ([({ id := Json.num 1, method := "tasks/send",
               params := { id := some "t1", sessionId := none,
                           message := { role := Role.user, parts := [Part.text "hi"] } } }, "s1"),
            ({ id := Json.num 2, method := "tasks/send",
               params := { id := some "t1", sessionId := none,
                           message := { role := Role.user, parts := [Part.text "hi"] } } }, "s2")].map
            (greetingPair (fun _ => none))) :=
  c2_greeting_history_length (fun _ => none) "t1" (by decide) [] rfl _ _
    (by
      intro c hc
      simp only [List.mem_cons, List.not_mem_nil, or_false] at hc
      rcases hc with h | h <;> subst h <;> rfl)

end A2A
